import Mathlib

/-!
Verification development for the ai-sre-agent repository.

Shallow embedding of the two algorithmic cores:
* the symptom correlator (`src/agent/src/agents/analysis.py`,
  `_analyze_symptoms`, `_generate_summary`, `_get_next_steps`);
* the incident decision workflow (`src/agent/src/workflows/sre_workflow.py`,
  `process_incident`, `_extract_decision`) together with the configured
  conversation driver.

Python dictionaries with optional keys are embedded as structures with
`Option` fields (`dict.get(k)` becomes the `Option` value, `dict.get(k, d)`
becomes `Option.getD`).  Python float confidence literals 0.8 / 0.7 / 0.5
are embedded as the exact rationals 8/10, 7/10, 5/10 (no float arithmetic
is ever performed on them in the source).
-/

namespace SREAgent

/-- Python list-of-characters prefix test (helper for substring search). -/
def isPrefixList : List Char → List Char → Bool
  | [], _ => true
  | _ :: _, [] => false
  | p :: ps, c :: cs => p == c && isPrefixList ps cs

/-- Helper for `strContains`: does `pat` occur as a contiguous run in `hay`? -/
def containsSub : List Char → List Char → Bool
  | [], pat => pat.isEmpty
  | c :: t, pat => isPrefixList pat (c :: t) || containsSub t pat

/-- Embedding of the Python substring operator `pat in s`. -/
def strContains (s pat : String) : Bool :=
  containsSub s.data pat.data

/-- Embedding of Python `str.lower()` (ASCII-faithful). -/
def lowerStr (s : String) : String :=
  ⟨s.data.map Char.toLower⟩

/-- Embedding of a Python `str.rstrip(", ")`: drop trailing commas/spaces. -/
def rstripCS (s : String) : String :=
  ⟨(s.data.reverse.dropWhile (fun c => c == ',' || c == ' ')).reverse⟩

/-- Python `f"{x}"` for an optional string (`None` prints as `"None"`). -/
def optStr : Option String → String
  | none => "None"
  | some s => s

/-- Python `f"{x}"` for an optional integer (`None` prints as `"None"`). -/
def optIntStr : Option Int → String
  | none => "None"
  | some n => toString n

/-- A Kubernetes event as consumed by `_analyze_symptoms`
(`event.get("type")`, `event.get("reason", "")`; remaining fields ride
along as evidence). -/
structure Event where
  type : Option String
  reason : Option String
  message : Option String
deriving Repr, DecidableEq

/-- A pod entry as consumed by `_analyze_symptoms`
(`pod.get("name")`, `pod.get("phase")`, `pod.get("restarts", 0)`). -/
structure Pod where
  name : Option String
  phase : Option String
  restarts : Option Int
deriving Repr, DecidableEq

/-- The `pod_status` mapping: `pods` is `none` when the "pods" key is
absent.  The whole argument is `Option PodStatus`, `none` standing for a
falsy (`None` / empty) `pod_status`. -/
structure PodStatus where
  pods : Option (List Pod)
deriving Repr, DecidableEq

/-- Issue type strings appended by `_analyze_symptoms`. -/
inductive IssueType
  | storage_issue
  | general_failure
  | pod_not_running
  | pod_restarts
deriving Repr, DecidableEq

/-- Severity strings appended by `_analyze_symptoms`. -/
inductive Severity
  | low
  | medium
  | high
deriving Repr, DecidableEq

/-- The ordinal confidence string threaded through `_analyze_symptoms`. -/
inductive Confidence
  | low
  | medium
  | high
deriving Repr, DecidableEq

/-- The `evidence` payload of an issue: the originating event or pod. -/
inductive Evidence
  | fromEvent (e : Event)
  | fromPod (p : Pod)
deriving Repr, DecidableEq

/-- One entry of the `issues` list built by `_analyze_symptoms`. -/
structure Issue where
  type : IssueType
  severity : Severity
  message : String
  evidence : Evidence
deriving Repr, DecidableEq

/-- The dictionary returned by `_analyze_symptoms`. -/
structure AnalysisResult where
  issues_found : Nat
  issues : List Issue
  confidence : Confidence
  analysis_summary : String
  recommended_next_steps : List String
deriving Repr, DecidableEq

/-- The `storage_issue` dictionary appended by `_analyze_symptoms`
(analysis.py lines 106-113). -/
def storageIssue (event : Event) : Issue :=
  { type := IssueType.storage_issue, severity := Severity.high,
    message := "Volume mount failure detected",
    evidence := Evidence.fromEvent event }

/-- The `general_failure` dictionary appended by `_analyze_symptoms`
(analysis.py lines 117-124). -/
def generalFailureIssue (event : Event) : Issue :=
  { type := IssueType.general_failure, severity := Severity.medium,
    message := "Failure detected: " ++ event.reason.getD "",
    evidence := Evidence.fromEvent event }

/-- The `pod_not_running` dictionary appended by `_analyze_symptoms`
(analysis.py lines 131-138). -/
def podNotRunningIssue (pod : Pod) : Issue :=
  { type := IssueType.pod_not_running, severity := Severity.high,
    message := "Pod " ++ optStr pod.name ++ " is in " ++
               optStr pod.phase ++ " state",
    evidence := Evidence.fromPod pod }

/-- The `pod_restarts` dictionary appended by `_analyze_symptoms`
(analysis.py lines 142-148). -/
def podRestartIssue (pod : Pod) : Issue :=
  { type := IssueType.pod_restarts, severity := Severity.medium,
    message := "Pod " ++ optStr pod.name ++ " has " ++
               optIntStr pod.restarts ++ " restarts",
    evidence := Evidence.fromPod pod }

/-- Body of the event loop of `_analyze_symptoms` (analysis.py lines
100-125): one event updates the `(issues, confidence)` accumulator. -/
def processEvent (acc : List Issue × Confidence) (event : Event) :
    List Issue × Confidence :=
  if event.type = some "Warning" then
    if strContains (event.reason.getD "") "FailedMount" then
      (acc.1 ++ [storageIssue event], Confidence.high)
    else if strContains (event.reason.getD "") "Failed" ||
            strContains (event.reason.getD "") "Error" then
      (acc.1 ++ [generalFailureIssue event], Confidence.medium)
    else acc
  else acc

/-- Body of the pod loop of `_analyze_symptoms` (analysis.py lines
127-149): one pod updates the `(issues, confidence)` accumulator. -/
def processPod (acc : List Issue × Confidence) (pod : Pod) :
    List Issue × Confidence :=
  let acc1 :=
    if pod.phase ≠ some "Running" then
      (acc.1 ++ [podNotRunningIssue pod], Confidence.high)
    else acc
  if pod.restarts.getD 0 > 0 then
    (acc1.1 ++ [podRestartIssue pod], acc1.2)
  else acc1

/-- `_generate_summary` (analysis.py lines 159-181). -/
def generateSummary (issues : List Issue) : String :=
  if h : issues = [] then "No significant issues detected in the analysis."
  else
    let high := issues.filter (fun i => i.severity = Severity.high)
    let med := issues.filter (fun i => i.severity = Severity.medium)
    let s0 := "Found " ++ toString issues.length ++ " issue(s): "
    let s1 := if high ≠ [] then s0 ++ toString high.length ++ " high-severity, " else s0
    let s2 := if med ≠ [] then s1 ++ toString med.length ++ " medium-severity" else s1
    rstripCS s2 ++ ". Primary concern: " ++ (issues.head h).message

/-- Steps contributed for `storage_issue` (analysis.py lines 191-198). -/
def storageSteps : List String :=
  ["Check PVC status and storage class",
   "Verify storage node availability",
   "Review storage provisioner logs"]

/-- Steps contributed for `pod_not_running` (analysis.py lines 200-207). -/
def podNotRunningSteps : List String :=
  ["Check pod events and logs",
   "Verify resource limits and requests",
   "Check node capacity and scheduling"]

/-- Steps contributed for `pod_restarts` (analysis.py lines 209-216). -/
def podRestartSteps : List String :=
  ["Examine container logs for crash reasons",
   "Check resource limits",
   "Review health check configurations"]

/-- Generic fallback steps (analysis.py lines 219-226). -/
def genericSteps : List String :=
  ["Review recent changes and deployments",
   "Check application logs",
   "Monitor resource usage trends"]

/-- `_get_next_steps` (analysis.py lines 183-228). -/
def getNextSteps (issues : List Issue) : List String :=
  if issues = [] then ["Continue monitoring", "No immediate action required"]
  else
    let types := issues.map Issue.type
    let s1 : List String :=
      if IssueType.storage_issue ∈ types then storageSteps else []
    let s2 : List String :=
      if IssueType.pod_not_running ∈ types then podNotRunningSteps else []
    let s3 : List String :=
      if IssueType.pod_restarts ∈ types then podRestartSteps else []
    let steps := s1 ++ s2 ++ s3
    let steps2 := if steps = [] then genericSteps else steps
    steps2.take 5

/-- `_analyze_symptoms` (analysis.py lines 76-157): fold the event loop,
then (when `pod_status` is truthy and has a "pods" key) the pod loop, and
assemble the result dictionary. -/
def analyzeSymptoms (events : List Event) (pod_status : Option PodStatus) :
    AnalysisResult :=
  let acc0 : List Issue × Confidence := ([], Confidence.low)
  let acc1 := events.foldl processEvent acc0
  let acc2 :=
    match pod_status with
    | some ps =>
      match ps.pods with
      | some pods => pods.foldl processPod acc1
      | none => acc1
    | none => acc1
  { issues_found := acc2.1.length
    issues := acc2.1
    confidence := acc2.2
    analysis_summary := generateSummary acc2.1
    recommended_next_steps := getNextSteps acc2.1 }

/-- The pod list actually iterated by `_analyze_symptoms` for a given
`pod_status` argument (empty when the section is absent or malformed). -/
def statusPods : Option PodStatus → List Pod
  | none => []
  | some ps => ps.pods.getD []

/-- One transcript entry; `content` embeds the `content` attribute read by
`_extract_decision`. -/
structure Message where
  content : String
deriving Repr, DecidableEq

/-- The autogen `TaskResult` as consumed by `_extract_decision`: only its
`messages` list is read. -/
structure TaskResult where
  messages : List Message
deriving Repr, DecidableEq

/-- One recommended action dictionary. -/
structure Action where
  action : String
  description : String
  priority : String
deriving Repr, DecidableEq

/-- Decision strings returned by the workflow. -/
inductive Decision
  | approve
  | reject
  | human_review
  | error
deriving Repr, DecidableEq

/-- The decision dictionary returned by `process_incident` /
`_extract_decision`.  `full_conversation` is only present (`some`) on the
successful extraction path, mirroring the Python dicts. -/
structure DecisionResult where
  decision : Decision
  confidence : Rat
  recommended_actions : List Action
  reasoning : String
  full_conversation : Option (List String)
deriving Repr, DecidableEq

/-- The fixed placeholder action list built in `_extract_decision`
(sre_workflow.py lines 201-208). -/
def placeholderActions : List Action :=
  [{ action := "review_team_analysis",
     description := "Review the multi-agent team analysis",
     priority := "medium" }]

/-- The error-shaped decision dictionary (decision "error", confidence 0.0,
no actions) produced on the failure paths of the workflow. -/
def errorResult (reasoning : String) : DecisionResult :=
  { decision := Decision.error, confidence := 0, recommended_actions := [],
    reasoning := reasoning, full_conversation := none }

/-- `_extract_decision` (sre_workflow.py lines 172-225).  Note that the
`"TERMINATE"` test is against the raw content (case-sensitive) while the
`"approve"` / `"reject"` / `"error"` tests are against the lowered content. -/
def extractDecision (task_result : TaskResult) : DecisionResult :=
  match task_result.messages.getLast? with
  | none => errorResult "No messages in task result"
  | some last_message =>
    let last_content := last_message.content
    let dc : Decision × Rat :=
      if strContains last_content "TERMINATE" ||
         strContains (lowerStr last_content) "approve" then
        (Decision.approve, 8/10)
      else if strContains (lowerStr last_content) "reject" ||
              strContains (lowerStr last_content) "error" then
        (Decision.reject, 7/10)
      else
        (Decision.human_review, 5/10)
    { decision := dc.1
      confidence := dc.2
      recommended_actions := placeholderActions
      reasoning := "Multi-agent team analysis: " ++ last_content.take 200 ++ "..."
      full_conversation := some (task_result.messages.map Message.content) }

/-- `process_incident` (sre_workflow.py lines 120-170) at the level of its
error structure: the team run either yields a `TaskResult` or raises (the
`Except.error` side carries `str(e)`), and an exception inside the body of
`_extract_decision` (caught by its own `try`, lines 218-225) is modelled by
the `extract_exc` argument. -/
def processIncident (team_run : Except String TaskResult)
    (extract_exc : Option String) : DecisionResult :=
  match team_run with
  | Except.error e => errorResult ("Workflow failed: " ++ e)
  | Except.ok task_result =>
    match extract_exc with
    | some e => errorResult ("Error parsing task result: " ++ e)
    | none => extractDecision task_result

/-- Modelled from the spec: the Conversation Driver itself
(`RoundRobinGroupChat` with `MaxMessageTermination(20)`,
`TextMentionTermination("TERMINATE")` and `max_turns=10`) lives in the
external autogen library; only its configuration is in
`src/agent/src/workflows/sre_workflow.py` (`_create_team`, lines 107-118).
Spec section 4.3: termination conditions are evaluated after every appended
message, first match wins: message count ≥ `max_messages`; content contains
the sentinel; or turn count ≥ `max_turns`.  This is the stop predicate after
appending the response of turn `k+1` (0-indexed response `k`; the transcript
then holds the initial message plus `k+1` responses, i.e. `k+2` entries). -/
def stopCond (maxMessages maxTurns : Nat) (sentinel resp : String) (k : Nat) :
    Bool :=
  decide (maxMessages ≤ k + 2) || strContains resp sentinel ||
    decide (maxTurns ≤ k + 1)

/-- Modelled from the spec: the appended-message segment of one driver run,
starting at response index `k`; the fuel argument is the remaining turn
budget (`maxTurns` at the start), which by section 4.3 always suffices
because the turn-count condition fires on the last budgeted turn. -/
def runAux (maxMessages maxTurns : Nat) (sentinel : String)
    (responses : Nat → String) : Nat → Nat → List String
  | _, 0 => []
  | k, Nat.succ fuel =>
    let r := responses k
    if stopCond maxMessages maxTurns sentinel r k then [r]
    else r :: runAux maxMessages maxTurns sentinel responses (k + 1) fuel

/-- Modelled from the spec (section 4.3): one full conversation run — the
initial incident message followed by the appended participant responses up
to the first satisfied termination condition. -/
def driverRun (maxMessages maxTurns : Nat) (sentinel initial : String)
    (responses : Nat → String) : List String :=
  initial :: runAux maxMessages maxTurns sentinel responses 0 maxTurns

/-- The `(issues, confidence)` accumulator at the end of both loops of
`_analyze_symptoms`. -/
def correlateAcc (events : List Event) (pod_status : Option PodStatus) :
    List Issue × Confidence :=
  (statusPods pod_status).foldl processPod
    (events.foldl processEvent ([], Confidence.low))

/-- An event taking the `FailedMount` branch of the event loop. -/
def isFailedMountWarning (e : Event) : Prop :=
  e.type = some "Warning" ∧ strContains (e.reason.getD "") "FailedMount" = true

/-- An event taking the `general_failure` branch of the event loop. -/
def isGeneralFailure (e : Event) : Prop :=
  e.type = some "Warning" ∧ strContains (e.reason.getD "") "FailedMount" = false ∧
    (strContains (e.reason.getD "") "Failed" ||
     strContains (e.reason.getD "") "Error") = true

theorem analyzeSymptoms_acc (events : List Event) (ps : Option PodStatus) :
    analyzeSymptoms events ps =
      { issues_found := (correlateAcc events ps).1.length
        issues := (correlateAcc events ps).1
        confidence := (correlateAcc events ps).2
        analysis_summary := generateSummary (correlateAcc events ps).1
        recommended_next_steps := getNextSteps (correlateAcc events ps).1 } := by
  cases ps with
  | none => rfl
  | some ps' =>
    obtain ⟨po⟩ := ps'
    cases po <;> rfl

theorem processEvent_cases (acc : List Issue × Confidence) (e : Event) :
    processEvent acc e = acc ∨
    processEvent acc e = (acc.1 ++ [storageIssue e], Confidence.high) ∨
    processEvent acc e = (acc.1 ++ [generalFailureIssue e], Confidence.medium) := by
  unfold processEvent
  split
  · split
    · right; left; rfl
    · split
      · right; right; rfl
      · left; rfl
  · left; rfl

theorem processPod_cases (acc : List Issue × Confidence) (p : Pod) :
    processPod acc p = acc ∨
    processPod acc p = (acc.1 ++ [podNotRunningIssue p], Confidence.high) ∨
    processPod acc p = (acc.1 ++ [podRestartIssue p], acc.2) ∨
    processPod acc p =
      (acc.1 ++ [podNotRunningIssue p] ++ [podRestartIssue p], Confidence.high) := by
  by_cases h1 : p.phase ≠ some "Running" <;> by_cases h2 : p.restarts.getD 0 > 0
  · right; right; right; simp [processPod, h1, h2]
  · right; left; simp [processPod, h1, h2]
  · right; right; left; simp [processPod, h1, h2]
  · left; simp [processPod, h1, h2]

theorem processEvent_fmw (acc : List Issue × Confidence) (e : Event)
    (h : isFailedMountWarning e) :
    processEvent acc e = (acc.1 ++ [storageIssue e], Confidence.high) := by
  obtain ⟨h1, h2⟩ := h
  simp [processEvent, h1, h2]

theorem processEvent_nonwarning (acc : List Issue × Confidence) (e : Event)
    (h : e.type ≠ some "Warning") : processEvent acc e = acc := by
  simp [processEvent, h]

theorem processEvent_keeps_high (acc : List Issue × Confidence) (e : Event)
    (h : acc.2 = Confidence.high) (hg : ¬ isGeneralFailure e) :
    (processEvent acc e).2 = Confidence.high := by
  by_cases h1 : e.type = some "Warning"
  · by_cases h2 : strContains (e.reason.getD "") "FailedMount" = true
    · simp [processEvent, h1, h2]
    · have h2' : strContains (e.reason.getD "") "FailedMount" = false := by
        simpa using h2
      have h3 : ¬ ((strContains (e.reason.getD "") "Failed" ||
                    strContains (e.reason.getD "") "Error") = true) := by
        intro hc
        exact hg ⟨h1, h2', hc⟩
      simp [processEvent, h1, h2, h3, h]
  · simp [processEvent, h1, h]

theorem processPod_conf (acc : List Issue × Confidence) (p : Pod) :
    (processPod acc p).2 = acc.2 ∨ (processPod acc p).2 = Confidence.high := by
  rcases processPod_cases acc p with h | h | h | h <;> rw [h] <;> simp

theorem processPod_id (acc : List Issue × Confidence) (p : Pod)
    (h1 : p.phase = some "Running") (h2 : p.restarts.getD 0 = 0) :
    processPod acc p = acc := by
  simp [processPod, h1, h2]

theorem foldl_processEvent_mem (l : List Event) :
    ∀ (acc : List Issue × Confidence) (i : Issue),
      i ∈ acc.1 → i ∈ (l.foldl processEvent acc).1 := by
  induction l with
  | nil => intro acc i h; simpa using h
  | cons e l ih =>
    intro acc i h
    rw [List.foldl_cons]
    apply ih
    rcases processEvent_cases acc e with hc | hc | hc <;> rw [hc] <;>
      simp [List.mem_append, h]

theorem foldl_processPod_mem (l : List Pod) :
    ∀ (acc : List Issue × Confidence) (i : Issue),
      i ∈ acc.1 → i ∈ (l.foldl processPod acc).1 := by
  induction l with
  | nil => intro acc i h; simpa using h
  | cons p l ih =>
    intro acc i h
    rw [List.foldl_cons]
    apply ih
    rcases processPod_cases acc p with hc | hc | hc | hc <;> rw [hc] <;>
      simp [List.mem_append, h]

theorem foldl_processEvent_keeps_high (l : List Event) :
    ∀ acc : List Issue × Confidence, acc.2 = Confidence.high →
      (∀ e ∈ l, ¬ isGeneralFailure e) →
      (l.foldl processEvent acc).2 = Confidence.high := by
  induction l with
  | nil => intro acc h _; simpa using h
  | cons e l ih =>
    intro acc h hg
    rw [List.foldl_cons]
    exact ih _ (processEvent_keeps_high acc e h (hg e (by simp)))
      (fun e2 he2 => hg e2 (by simp [he2]))

theorem foldl_processPod_keeps_high (l : List Pod) :
    ∀ acc : List Issue × Confidence, acc.2 = Confidence.high →
      (l.foldl processPod acc).2 = Confidence.high := by
  induction l with
  | nil => intro acc h; simpa using h
  | cons p l ih =>
    intro acc h
    rw [List.foldl_cons]
    apply ih
    rcases processPod_conf acc p with hc | hc
    · rw [hc, h]
    · exact hc

theorem foldl_processEvent_id (l : List Event)
    (h : ∀ e ∈ l, e.type ≠ some "Warning") :
    ∀ acc : List Issue × Confidence, l.foldl processEvent acc = acc := by
  induction l with
  | nil => intro acc; rfl
  | cons e l ih =>
    intro acc
    rw [List.foldl_cons, processEvent_nonwarning acc e (h e (by simp))]
    exact ih (fun e2 he2 => h e2 (by simp [he2])) acc

theorem foldl_processPod_id (l : List Pod)
    (h : ∀ p ∈ l, p.phase = some "Running" ∧ p.restarts.getD 0 = 0) :
    ∀ acc : List Issue × Confidence, l.foldl processPod acc = acc := by
  induction l with
  | nil => intro acc; rfl
  | cons p l ih =>
    intro acc
    rw [List.foldl_cons,
      processPod_id acc p (h p (by simp)).1 (h p (by simp)).2]
    exact ih (fun p2 hp2 => h p2 (by simp [hp2])) acc

theorem foldl_processEvent_sev (l : List Event) :
    ∀ acc : List Issue × Confidence,
      (∀ i ∈ acc.1, i.severity = Severity.high ∨ i.severity = Severity.medium) →
      ∀ i ∈ (l.foldl processEvent acc).1,
        i.severity = Severity.high ∨ i.severity = Severity.medium := by
  induction l with
  | nil => intro acc h; simpa using h
  | cons e l ih =>
    intro acc h
    rw [List.foldl_cons]
    apply ih
    rcases processEvent_cases acc e with hc | hc | hc <;> rw [hc]
    · exact h
    · intro i hi
      rcases List.mem_append.1 hi with h' | h'
      · exact h i h'
      · simp only [List.mem_singleton] at h'
        subst h'
        exact Or.inl rfl
    · intro i hi
      rcases List.mem_append.1 hi with h' | h'
      · exact h i h'
      · simp only [List.mem_singleton] at h'
        subst h'
        exact Or.inr rfl

theorem foldl_processPod_sev (l : List Pod) :
    ∀ acc : List Issue × Confidence,
      (∀ i ∈ acc.1, i.severity = Severity.high ∨ i.severity = Severity.medium) →
      ∀ i ∈ (l.foldl processPod acc).1,
        i.severity = Severity.high ∨ i.severity = Severity.medium := by
  induction l with
  | nil => intro acc h; simpa using h
  | cons p l ih =>
    intro acc h
    rw [List.foldl_cons]
    apply ih
    rcases processPod_cases acc p with hc | hc | hc | hc <;> rw [hc]
    · exact h
    · intro i hi
      rcases List.mem_append.1 hi with h' | h'
      · exact h i h'
      · simp only [List.mem_singleton] at h'
        subst h'
        exact Or.inl rfl
    · intro i hi
      rcases List.mem_append.1 hi with h' | h'
      · exact h i h'
      · simp only [List.mem_singleton] at h'
        subst h'
        exact Or.inr rfl
    · intro i hi
      rcases List.mem_append.1 hi with h' | h'
      · rcases List.mem_append.1 h' with h'' | h''
        · exact h i h''
        · simp only [List.mem_singleton] at h''
          subst h''
          exact Or.inl rfl
      · simp only [List.mem_singleton] at h'
        subst h'
        exact Or.inr rfl

theorem extractDecision_getLast (msgs : List Message) (m : Message)
    (h : msgs.getLast? = some m) :
    extractDecision ⟨msgs⟩ =
      { decision :=
          if strContains m.content "TERMINATE" ||
             strContains (lowerStr m.content) "approve" then Decision.approve
          else if strContains (lowerStr m.content) "reject" ||
                  strContains (lowerStr m.content) "error" then Decision.reject
          else Decision.human_review
        confidence :=
          if strContains m.content "TERMINATE" ||
             strContains (lowerStr m.content) "approve" then 8/10
          else if strContains (lowerStr m.content) "reject" ||
                  strContains (lowerStr m.content) "error" then 7/10
          else 5/10
        recommended_actions := placeholderActions
        reasoning := "Multi-agent team analysis: " ++ m.content.take 200 ++ "..."
        full_conversation := some (msgs.map Message.content) } := by
  unfold extractDecision
  dsimp only
  rw [h]
  dsimp only
  split_ifs <;> rfl

theorem extractDecision_conf_cases (t : TaskResult) :
    (extractDecision t).confidence = 0 ∨ (extractDecision t).confidence = 8/10 ∨
    (extractDecision t).confidence = 7/10 ∨ (extractDecision t).confidence = 5/10 := by
  rcases hm : t.messages.getLast? with _ | m
  · left
    unfold extractDecision
    rw [hm]
    rfl
  · obtain ⟨msgs⟩ := t
    rw [extractDecision_getLast msgs m hm]
    dsimp only
    split_ifs
    · right; left; rfl
    · right; right; left; rfl
    · right; right; right; rfl

theorem runAux_length_le (M T : Nat) (s : String) (resp : Nat → String) :
    ∀ (fuel k : Nat), (runAux M T s resp k fuel).length ≤ fuel := by
  intro fuel
  induction fuel with
  | zero => intro k; simp [runAux]
  | succ f ih =>
    intro k
    simp only [runAux]
    split
    · simp
    · simpa using Nat.succ_le_succ (ih (k + 1))

theorem runAux_segment (M T : Nat) (s : String) (resp : Nat → String) :
    ∀ (n fuel k : Nat), n < fuel →
      (∀ j, j < n → stopCond M T s (resp (k + j)) (k + j) = false) →
      stopCond M T s (resp (k + n)) (k + n) = true →
      runAux M T s resp k fuel = (List.range (n + 1)).map (fun j => resp (k + j)) := by
  intro n
  induction n with
  | zero =>
    intro fuel k hlt _ hstop
    cases fuel with
    | zero => omega
    | succ f =>
      rw [Nat.add_zero] at hstop
      simp only [runAux]
      rw [if_pos hstop]
      rw [show List.range 1 = [0] from rfl]
      simp
  | succ n ih =>
    intro fuel k hlt hpre hstop
    cases fuel with
    | zero => omega
    | succ f =>
      have h0 : stopCond M T s (resp k) k = false := by
        have := hpre 0 (Nat.succ_pos n)
        simpa using this
      simp only [runAux]
      rw [if_neg (by simp [h0])]
      have hrec := ih f (k + 1) (by omega)
        (fun j hj => by
          have := hpre (j + 1) (by omega)
          have harith : k + (j + 1) = k + 1 + j := by omega
          rwa [harith] at this)
        (by
          have harith : k + (n + 1) = k + 1 + n := by omega
          rwa [harith] at hstop)
      rw [hrec]
      have hfun : (fun j => resp (k + 1 + j)) = (fun j => resp (k + (j + 1))) :=
        funext fun j => by
          have : k + 1 + j = k + (j + 1) := by omega
          rw [this]
      rw [hfun, List.range_succ_eq_map (n + 1)]
      simp [List.map_map, Function.comp]

/-- A `Warning`/`FailedMount` event (used as concrete test input). -/
def fmEvent : Event := ⟨some "Warning", some "FailedMount", none⟩

/-- A `Warning`/`FailedScheduling` event: its reason contains `Failed` but
not `FailedMount`, so it takes the `general_failure` branch. -/
def fsEvent : Event := ⟨some "Warning", some "FailedScheduling", none⟩

/-- Claim C1 (corrected): an event sequence containing a
`Warning`/`FailedMount` event always yields a `storage_issue` entry, and
the confidence is `high` provided no later event takes the
`general_failure` branch (which would overwrite confidence with `medium`,
last write wins). -/
theorem failedMount_storage_issue (l1 l2 : List Event) (e : Event)
    (ps : Option PodStatus) (hfm : isFailedMountWarning e) :
    (∃ i ∈ (analyzeSymptoms (l1 ++ e :: l2) ps).issues,
        i.type = IssueType.storage_issue) ∧
    ((∀ e2 ∈ l2, ¬ isGeneralFailure e2) →
        (analyzeSymptoms (l1 ++ e :: l2) ps).confidence = Confidence.high) := by
  rw [analyzeSymptoms_acc]
  dsimp only
  constructor
  · refine ⟨storageIssue e, ?_, rfl⟩
    unfold correlateAcc
    rw [List.foldl_append, List.foldl_cons,
      processEvent_fmw (l1.foldl processEvent ([], Confidence.low)) e hfm]
    apply foldl_processPod_mem
    apply foldl_processEvent_mem
    simp
  · intro hl2
    unfold correlateAcc
    rw [List.foldl_append, List.foldl_cons,
      processEvent_fmw (l1.foldl processEvent ([], Confidence.low)) e hfm]
    apply foldl_processPod_keeps_high
    exact foldl_processEvent_keeps_high l2 _ rfl hl2

/-- Claim C1 counterexample: a `FailedMount` warning followed by a
`FailedScheduling` warning leaves the final confidence at `medium`, not
`high`, although the `storage_issue` entry is present. -/
theorem failedMount_confidence_counterexample :
    (∃ i ∈ (analyzeSymptoms [fmEvent, fsEvent] none).issues,
        i.type = IssueType.storage_issue) ∧
    (analyzeSymptoms [fmEvent, fsEvent] none).confidence = Confidence.medium ∧
    (analyzeSymptoms [fmEvent, fsEvent] none).confidence ≠ Confidence.high := by
  refine ⟨by decide, by decide, by decide⟩

/-- Witness for C1: a lone `FailedMount` warning gives a `storage_issue`
and confidence `high`. -/
theorem failedMount_storage_issue_witness :
    (∃ i ∈ (analyzeSymptoms ([] ++ fmEvent :: []) none).issues,
        i.type = IssueType.storage_issue) ∧
    (analyzeSymptoms ([] ++ fmEvent :: []) none).confidence = Confidence.high :=
  ⟨(failedMount_storage_issue [] [] fmEvent none ⟨rfl, rfl⟩).1,
   (failedMount_storage_issue [] [] fmEvent none ⟨rfl, rfl⟩).2 (by simp)⟩

/-- Claim C2 (corrected): the Decision Extractor inspects only the last
message, first rule winning, but the sentinel `TERMINATE` is matched
case-sensitively against the raw content while `approve`, `reject` and
`error` are matched against the lowered content; the three example
messages behave as the claim states. -/
theorem extractDecision_rules (pre : List Message) (m : Message) :
    ((extractDecision ⟨pre ++ [m]⟩).decision =
      (if strContains m.content "TERMINATE" ||
          strContains (lowerStr m.content) "approve" then Decision.approve
       else if strContains (lowerStr m.content) "reject" ||
               strContains (lowerStr m.content) "error" then Decision.reject
       else Decision.human_review)) ∧
    ((extractDecision ⟨pre ++ [m]⟩).confidence =
      (if strContains m.content "TERMINATE" ||
          strContains (lowerStr m.content) "approve" then 8/10
       else if strContains (lowerStr m.content) "reject" ||
               strContains (lowerStr m.content) "error" then 7/10
       else 5/10)) ∧
    (extractDecision ⟨[⟨"All checks pass, approve and TERMINATE"⟩]⟩).decision =
      Decision.approve ∧
    (extractDecision ⟨[⟨"All checks pass, approve and TERMINATE"⟩]⟩).confidence = 8/10 ∧
    (extractDecision ⟨[⟨"This looks rejected due to error"⟩]⟩).decision =
      Decision.reject ∧
    (extractDecision ⟨[⟨"This looks rejected due to error"⟩]⟩).confidence = 7/10 ∧
    (extractDecision ⟨[⟨"Still investigating"⟩]⟩).decision =
      Decision.human_review ∧
    (extractDecision ⟨[⟨"Still investigating"⟩]⟩).confidence = 5/10 := by
  refine ⟨?_, ?_, by decide, rfl, by decide, rfl, by decide, rfl⟩
  · rw [extractDecision_getLast (pre ++ [m]) m (List.getLast?_concat _)]
  · rw [extractDecision_getLast (pre ++ [m]) m (List.getLast?_concat _)]

/-- Claim C2 counterexample: a lowercase `terminate` in the last message
does not match the sentinel (the code's `"TERMINATE" in last_content` test
is case-sensitive), so the result is `human_review`, not `approve`. -/
theorem terminate_match_case_sensitive :
    (extractDecision ⟨[⟨"please terminate"⟩]⟩).decision = Decision.human_review ∧
    (extractDecision ⟨[⟨"please terminate"⟩]⟩).decision ≠ Decision.approve ∧
    (extractDecision ⟨[⟨"please terminate"⟩]⟩).confidence = 5/10 :=
  ⟨by decide, by decide, rfl⟩

/-- Claim C3 (confirmed): `process_incident` always returns exactly one
well-formed DecisionResult — confidence stays in [0,1] on every path, a
team-run exception maps to the `Workflow failed:` error result, and an
extraction exception maps to the `Error parsing task result:` error
result, each with decision `error`, confidence 0 and no actions. -/
theorem processIncident_error_boundary :
    (∀ (tr : Except String TaskResult) (ee : Option String),
        0 ≤ (processIncident tr ee).confidence ∧
        (processIncident tr ee).confidence ≤ 1) ∧
    (∀ (e : String) (ee : Option String),
        processIncident (Except.error e) ee =
          errorResult ("Workflow failed: " ++ e)) ∧
    (∀ (t : TaskResult) (e : String),
        processIncident (Except.ok t) (some e) =
          errorResult ("Error parsing task result: " ++ e)) ∧
    (∀ s, (errorResult s).decision = Decision.error ∧
        (errorResult s).confidence = 0 ∧
        (errorResult s).recommended_actions = []) := by
  refine ⟨?_, fun e ee => rfl, fun t e => rfl, fun s => ⟨rfl, rfl, rfl⟩⟩
  intro tr ee
  cases tr with
  | error e =>
    constructor <;> norm_num [processIncident, errorResult]
  | ok t =>
    cases ee with
    | some e =>
      constructor <;> norm_num [processIncident, errorResult]
    | none =>
      have hd : processIncident (Except.ok t) none = extractDecision t := rfl
      rw [hd]
      rcases extractDecision_conf_cases t with h | h | h | h <;> rw [h] <;>
        constructor <;> norm_num

/-- Claim C4 (confirmed): with no Warning events and only Running pods
with zero restarts, the correlator returns an empty issue list and the
exact "no significant issues" summary. -/
theorem healthy_no_issues (events : List Event) (ps : Option PodStatus)
    (hev : ∀ e ∈ events, e.type ≠ some "Warning")
    (hpod : ∀ p ∈ statusPods ps,
        p.phase = some "Running" ∧ p.restarts.getD 0 = 0) :
    (analyzeSymptoms events ps).issues = [] ∧
    (analyzeSymptoms events ps).analysis_summary =
      "No significant issues detected in the analysis." := by
  have hacc : correlateAcc events ps = ([], Confidence.low) := by
    unfold correlateAcc
    rw [foldl_processEvent_id events hev]
    exact foldl_processPod_id (statusPods ps) hpod _
  rw [analyzeSymptoms_acc]
  dsimp only
  rw [hacc]
  exact ⟨rfl, rfl⟩

/-- Witness for C4: one Normal event and one healthy Running pod. -/
theorem healthy_no_issues_witness :
    (analyzeSymptoms [⟨some "Normal", some "Scheduled", none⟩]
        (some ⟨some [⟨some "app-1", some "Running", some 0⟩]⟩)).issues = [] ∧
    (analyzeSymptoms [⟨some "Normal", some "Scheduled", none⟩]
        (some ⟨some [⟨some "app-1", some "Running", some 0⟩]⟩)).analysis_summary =
      "No significant issues detected in the analysis." :=
  healthy_no_issues _ _ (by decide) (by decide)

/-- Claim C5 (confirmed): the next-steps list has length at most 5; it is
exactly the two monitoring entries for an empty issue list, exactly the
three generic steps for a non-empty list with no recognized type, and
otherwise the per-type step lists concatenated in the fixed order
storage_issue, pod_not_running, pod_restarts (once per type present) and
truncated to 5. -/
theorem nextSteps_contract (issues : List Issue) :
    (getNextSteps issues).length ≤ 5 ∧
    (issues = [] →
      getNextSteps issues = ["Continue monitoring", "No immediate action required"]) ∧
    (issues ≠ [] →
      IssueType.storage_issue ∉ issues.map Issue.type →
      IssueType.pod_not_running ∉ issues.map Issue.type →
      IssueType.pod_restarts ∉ issues.map Issue.type →
      getNextSteps issues = genericSteps) ∧
    (issues ≠ [] →
      (IssueType.storage_issue ∈ issues.map Issue.type ∨
       IssueType.pod_not_running ∈ issues.map Issue.type ∨
       IssueType.pod_restarts ∈ issues.map Issue.type) →
      getNextSteps issues =
        ((if IssueType.storage_issue ∈ issues.map Issue.type then storageSteps else []) ++
         (if IssueType.pod_not_running ∈ issues.map Issue.type then podNotRunningSteps else []) ++
         (if IssueType.pod_restarts ∈ issues.map Issue.type then podRestartSteps else [])).take 5) := by
  refine ⟨?_, ?_, ?_, ?_⟩
  · by_cases he : issues = []
    · simp [getNextSteps, he]
    · simp only [getNextSteps, if_neg he]
      exact List.length_take_le 5 _
  · intro he
    simp [getNextSteps, he]
  · intro he h1 h2 h3
    simp [getNextSteps, he, h1, h2, h3]
    decide
  · intro he hr
    have hne :
        ((if IssueType.storage_issue ∈ issues.map Issue.type then storageSteps else []) ++
         (if IssueType.pod_not_running ∈ issues.map Issue.type then podNotRunningSteps else []) ++
         (if IssueType.pod_restarts ∈ issues.map Issue.type then podRestartSteps else [])) ≠ [] := by
      rcases hr with h | h | h <;>
        simp [h, storageSteps, podNotRunningSteps, podRestartSteps]
    simp only [getNextSteps, if_neg he]
    rw [if_neg hne]

/-- Witness for C5: the empty issue list produces exactly the two
monitoring entries. -/
theorem nextSteps_contract_witness :
    getNextSteps [] = ["Continue monitoring", "No immediate action required"] :=
  (nextSteps_contract []).2.1 rfl

/-- Claim C6 (confirmed): an empty message list yields decision `error`,
confidence 0, no actions, and the exact reasoning string. -/
theorem extractDecision_empty_transcript :
    (extractDecision ⟨[]⟩).decision = Decision.error ∧
    (extractDecision ⟨[]⟩).confidence = 0 ∧
    (extractDecision ⟨[]⟩).recommended_actions = [] ∧
    (extractDecision ⟨[]⟩).reasoning = "No messages in task result" :=
  ⟨rfl, rfl, rfl, rfl⟩

/-- The end-to-end scenario's event: one `FailedMount` Warning. -/
def scenarioEvent : Event :=
  ⟨some "Warning", some "FailedMount", some "Unable to mount volumes for pod"⟩

/-- The end-to-end scenario's pod: `Pending` with 2 restarts. -/
def scenarioPod : Pod := ⟨some "api-7f9", some "Pending", some 2⟩

/-- The correlator output on the end-to-end scenario input. -/
def scenarioAnalysis : AnalysisResult :=
  analyzeSymptoms [scenarioEvent] (some ⟨some [scenarioPod]⟩)

/-- Claim C7 (corrected): the scenario yields the three issues in order
(storage_issue/high, pod_not_running/high, pod_restarts/medium) with
confidence high, and a transcript whose last message matches no keyword
yields decision human_review with confidence 0.5 — but the recommended
actions are the fixed placeholder `review_team_analysis`/`medium`, not
`check_pod_logs`/`high`. -/
theorem scenario_end_to_end :
    (scenarioAnalysis.issues.map (fun i => (i.type, i.severity)) =
      [(IssueType.storage_issue, Severity.high),
       (IssueType.pod_not_running, Severity.high),
       (IssueType.pod_restarts, Severity.medium)]) ∧
    scenarioAnalysis.confidence = Confidence.high ∧
    (∀ (pre : List Message) (m : Message),
      strContains m.content "TERMINATE" = false →
      strContains (lowerStr m.content) "approve" = false →
      strContains (lowerStr m.content) "reject" = false →
      strContains (lowerStr m.content) "error" = false →
      (extractDecision ⟨pre ++ [m]⟩).decision = Decision.human_review ∧
      (extractDecision ⟨pre ++ [m]⟩).confidence = 5/10 ∧
      (extractDecision ⟨pre ++ [m]⟩).recommended_actions.map
          (fun a => (a.action, a.priority)) =
        [("review_team_analysis", "medium")]) := by
  refine ⟨by decide, by decide, ?_⟩
  intro pre m h1 h2 h3 h4
  rw [extractDecision_getLast (pre ++ [m]) m (List.getLast?_concat _)]
  refine ⟨by simp [h1, h2, h3, h4], by simp [h1, h2, h3, h4], rfl⟩

/-- Claim C7 counterexample: on a keyword-free last message the
recommended actions are the placeholder `review_team_analysis`/`medium`,
not `check_pod_logs`/`high` as the claim states. -/
theorem scenario_actions_counterexample :
    (extractDecision ⟨[⟨"Team analysis complete"⟩]⟩).recommended_actions.map
        (fun a => (a.action, a.priority)) =
      [("review_team_analysis", "medium")] ∧
    (extractDecision ⟨[⟨"Team analysis complete"⟩]⟩).recommended_actions.map
        (fun a => (a.action, a.priority)) ≠
      [("check_pod_logs", "high")] := by
  constructor <;> decide

/-- Witness for C7: the third conjunct applied to a concrete keyword-free
last message. -/
theorem scenario_end_to_end_witness :
    (extractDecision ⟨[] ++ [⟨"Team analysis complete"⟩]⟩).decision =
      Decision.human_review ∧
    (extractDecision ⟨[] ++ [⟨"Team analysis complete"⟩]⟩).confidence = 5/10 ∧
    (extractDecision ⟨[] ++ [⟨"Team analysis complete"⟩]⟩).recommended_actions.map
        (fun a => (a.action, a.priority)) =
      [("review_team_analysis", "medium")] :=
  scenario_end_to_end.2.2 [] ⟨"Team analysis complete"⟩
    (by decide) (by decide) (by decide) (by decide)

/-- Claim C8 (corrected; driver modelled from the spec, section 4.3): with
the configured defaults (max_messages 20, sentinel "TERMINATE", max_turns
10) the transcript never exceeds 20 messages; a run whose participants
never emit the sentinel in their first 10 responses stops at the turn
bound; and a run whose first sentinel occurs within the first 10 responses
stops exactly at that message, appending nothing afterward. -/
theorem driver_termination (initial : String) (responses : Nat → String) :
    (driverRun 20 10 "TERMINATE" initial responses).length ≤ 20 ∧
    ((∀ j, j < 10 → strContains (responses j) "TERMINATE" = false) →
      driverRun 20 10 "TERMINATE" initial responses =
        initial :: (List.range 10).map responses) ∧
    (∀ k0, k0 < 10 → strContains (responses k0) "TERMINATE" = true →
      (∀ j, j < k0 → strContains (responses j) "TERMINATE" = false) →
      driverRun 20 10 "TERMINATE" initial responses =
        initial :: (List.range (k0 + 1)).map responses) := by
  have hzero : ∀ f : Nat → String, (fun j => f (0 + j)) = f :=
    fun f => funext fun j => by rw [Nat.zero_add]
  refine ⟨?_, ?_, ?_⟩
  · have h := runAux_length_le 20 10 "TERMINATE" responses 10 0
    simp only [driverRun, List.length_cons]
    omega
  · intro hns
    unfold driverRun
    have hmid : ∀ j, j < 9 →
        stopCond 20 10 "TERMINATE" (responses (0 + j)) (0 + j) = false := by
      intro j hj
      have hs : strContains (responses (0 + j)) "TERMINATE" = false :=
        hns (0 + j) (by omega)
      simp only [stopCond, hs, Bool.or_false, Bool.or_eq_false_iff,
        decide_eq_false_iff_not]
      omega
    have hstop : stopCond 20 10 "TERMINATE" (responses (0 + 9)) (0 + 9) = true := by
      simp only [stopCond, Bool.or_eq_true, decide_eq_true_eq]
      right
      omega
    rw [runAux_segment 20 10 "TERMINATE" responses 9 10 0 (by omega) hmid hstop,
      hzero responses]
  · intro k0 hk0 hsent hpre
    unfold driverRun
    have hmid : ∀ j, j < k0 →
        stopCond 20 10 "TERMINATE" (responses (0 + j)) (0 + j) = false := by
      intro j hj
      have hs : strContains (responses (0 + j)) "TERMINATE" = false :=
        hpre (0 + j) (by omega)
      simp only [stopCond, hs, Bool.or_false, Bool.or_eq_false_iff,
        decide_eq_false_iff_not]
      omega
    have hstop : stopCond 20 10 "TERMINATE" (responses (0 + k0)) (0 + k0) = true := by
      have hs : strContains (responses (0 + k0)) "TERMINATE" = true := by
        rw [Nat.zero_add]
        exact hsent
      simp only [stopCond, hs, Bool.or_true, Bool.true_or]
    rw [runAux_segment 20 10 "TERMINATE" responses k0 10 0 (by omega) hmid hstop,
      hzero responses]

/-- A participant stream whose first sentinel only occurs at response
index 10, i.e. past the turn bound. -/
def lateSentinel : Nat → String :=
  fun k => if k = 10 then "TERMINATE now" else "working"

/-- Claim C8 counterexample: the stream emits the sentinel (at index 10),
yet the run stops at the turn bound and no transcript message contains the
sentinel — the run does not terminate "exactly at the message containing
the sentinel". -/
theorem driver_late_sentinel_counterexample :
    strContains (lateSentinel 10) "TERMINATE" = true ∧
    driverRun 20 10 "TERMINATE" "incident" lateSentinel =
      "incident" :: (List.range 10).map lateSentinel ∧
    (∀ msg ∈ driverRun 20 10 "TERMINATE" "incident" lateSentinel,
      strContains msg "TERMINATE" = false) := by
  refine ⟨by decide, by decide, by decide⟩

/-- A participant stream emitting the sentinel at response index 2. -/
def earlySentinel : Nat → String :=
  fun k => if k = 2 then "all good TERMINATE" else "step ok"

/-- Witness for C8: the sentinel at index 2 stops the run right there. -/
theorem driver_termination_witness :
    driverRun 20 10 "TERMINATE" "incident" earlySentinel =
      "incident" :: (List.range 3).map earlySentinel :=
  (driver_termination "incident" earlySentinel).2.2 2
    (by decide) (by decide) (by decide)

/-- Claim C9 (corrected): the correlator is total and a complete result is
always returned; a falsy `pod_status` or a missing "pods" key contributes
no pod issues, and events without a `type` field contribute no event
issues — but a pod missing its fields is treated as a non-Running pod
(`None != "Running"`) and contributes a `pod_not_running` issue. -/
theorem correlator_malformed_inputs (events : List Event) (ps : Option PodStatus) :
    ((analyzeSymptoms events ps).issues_found =
      (analyzeSymptoms events ps).issues.length) ∧
    (statusPods ps = [] → analyzeSymptoms events ps = analyzeSymptoms events none) ∧
    ((∀ e ∈ events, e.type = none) →
      analyzeSymptoms events ps = analyzeSymptoms [] ps) ∧
    ((analyzeSymptoms [] (some ⟨some [⟨none, none, none⟩]⟩)).issues.map Issue.type =
      [IssueType.pod_not_running]) := by
  refine ⟨?_, ?_, ?_, by decide⟩
  · rw [analyzeSymptoms_acc]
  · intro hps
    rw [analyzeSymptoms_acc events ps, analyzeSymptoms_acc events none]
    unfold correlateAcc
    rw [hps]
    rfl
  · intro hev
    rw [analyzeSymptoms_acc events ps, analyzeSymptoms_acc [] ps]
    unfold correlateAcc
    rw [foldl_processEvent_id events
      (fun e he => by rw [hev e he]; intro hc; cases hc)]
    rfl

/-- Claim C9 counterexample: a pod dictionary with no fields at all still
produces a `pod_not_running` issue, contradicting "missing fields
contribute no issues of that category". -/
theorem missing_phase_pod_counterexample :
    (analyzeSymptoms [] (some ⟨some [⟨none, none, none⟩]⟩)).issues ≠ [] ∧
    (analyzeSymptoms [] (some ⟨some [⟨none, none, none⟩]⟩)).issues.map Issue.type =
      [IssueType.pod_not_running] := by
  constructor <;> decide

/-- Witness for C9: an event with no `type` field is ignored by the event
loop. -/
theorem correlator_malformed_inputs_witness :
    analyzeSymptoms [⟨none, none, none⟩] none = analyzeSymptoms [] none :=
  (correlator_malformed_inputs [⟨none, none, none⟩] none).2.2.1 (by decide)

/-- Claim C10 (confirmed): every issue the correlator ever produces has
severity `high` or `medium`; no code path appends severity `low`. -/
theorem issue_severity_invariant (events : List Event) (ps : Option PodStatus) :
    ∀ i ∈ (analyzeSymptoms events ps).issues,
      i.severity = Severity.high ∨ i.severity = Severity.medium := by
  rw [analyzeSymptoms_acc]
  dsimp only
  unfold correlateAcc
  apply foldl_processPod_sev
  apply foldl_processEvent_sev
  intro i hi
  simp at hi

/-- Witness for C10: the storage issue produced for a `FailedMount`
warning indeed has severity `high` or `medium`. -/
theorem issue_severity_invariant_witness :
    (storageIssue fmEvent).severity = Severity.high ∨
    (storageIssue fmEvent).severity = Severity.medium :=
  issue_severity_invariant [fmEvent] none (storageIssue fmEvent) (by decide)

end SREAgent
